import Mathlib

/-!
Verification development for the device-discovery layer
(`modules/axdriver/src/drivers.rs`): probe/registration framework and the
DMA address-translation adapter. Pure functions are shallowly embedded;
external collaborator calls (the PCI BAR query, the coherent allocator,
the concrete NIC constructors) are threaded in as explicit parameters, so
that each probe is a function of the results the collaborators return.
Rust panics (`unwrap` / `expect`) are modelled by an explicit
`RustResult.panicked` outcome. Machine integers are `Nat` with explicit
`% 2 ^ 64` where a cast occurs; the build targets are 64-bit, so
`usize` is 64 bits wide and `isize::MAX = 2 ^ 63 - 1`.
-/

/-- The size of the usize value space on the 64-bit targets this kernel builds for. -/
def USIZE_SIZE : Nat := 2 ^ 64

/-- isize::MAX on a 64-bit target. -/
def ISIZE_MAX : Nat := 2 ^ 63 - 1

/-- Outcome of a Rust computation that may panic: either a value, or a panic
with the panic message. -/
inductive RustResult (α : Type) where
  | ok (val : α)
  | panicked (msg : String)
  deriving DecidableEq, Repr

/-- core::alloc::Layout: a size and a power-of-two alignment. -/
structure Layout where
  size : Nat
  align : Nat
  deriving DecidableEq, Repr

/-- core::alloc::Layout::from_size_align: errors unless `align` is a power of
two and `size`, rounded up to `align`, stays within `isize::MAX`
(the documented check is `size > isize::MAX - (align - 1)`). -/
def Layout.from_size_align (size align : Nat) : Option Layout :=
  if align ≠ 0 ∧ align &&& (align - 1) = 0 ∧ size ≤ ISIZE_MAX - (align - 1) then
    some ⟨size, align⟩
  else
    none

/-- core::ptr::NonNull::<u8>::dangling(): the dangling pointer for `u8`, whose
address equals the alignment of `u8`, i.e. 1. -/
def NonNull.dangling : Nat := 1

/-- axdma::DMAInfo: one coherent allocation, as a bus address (u64) paired
with the CPU virtual address of the buffer. -/
structure DMAInfo where
  bus_addr : Nat
  cpu_addr : Nat
  deriving DecidableEq, Repr

/-- Modelled from the spec: the kernel physical/virtual mapping service
(`axhal::mem::phys_to_virt`, an external collaborator not under this
module), "pure address-space conversions ... delegating to the kernel's
physical/virtual mapping service": a linear mapping that adds a constant
offset `off`, in usize arithmetic. -/
def phys_to_virt (off p : Nat) : Nat := (p + off) % USIZE_SIZE

/-- Modelled from the spec: the inverse direction of the kernel mapping
service (`axhal::mem::virt_to_phys`): subtracts the same constant offset,
in usize arithmetic. -/
def virt_to_phys (off v : Nat) : Nat := (v + (USIZE_SIZE - off % USIZE_SIZE)) % USIZE_SIZE

/-- Modelled from the spec: a RAM-backed block device; "a 16 MiB
(0x100_0000-byte) zero-initialized RAM region". `size` in bytes, `contents`
the byte at each offset. -/
structure RamDisk where
  size : Nat
  contents : Nat → Nat

/-- Modelled from the spec: `axdriver_block::ramdisk::RamDisk::new(size)`
creates a zero-initialized RAM region of `size` bytes. -/
def RamDisk.new (size : Nat) : RamDisk := ⟨size, fun _ => 0⟩

/-- Modelled from the spec: the SD-host-controller driver instance produced by
`axdriver_block::bcm2835sdhci::SDHCIDriver::try_new` on success (an external
driver crate; its internals are out of scope). -/
structure SDHCIDev where
  regs : Nat
  deriving DecidableEq, Repr

/-- The ixgbe NIC driver instance produced by
`IxgbeNic::<IxgbeHalImpl, QS, QN>::init(vbase, size)` on success (external
driver crate); it records the mapped base and size it was initialized with. -/
structure IxgbeNicDev where
  vbase : Nat
  memSize : Nat
  deriving DecidableEq, Repr

/-- The igb NIC driver instance produced by
`IgbNic::<IgbHalImpl, QS, QN>::init(vbase, size)` on success (external
driver crate); it records the mapped base and size it was initialized with. -/
structure IgbNicDev where
  vbase : Nat
  memSize : Nat
  deriving DecidableEq, Repr

/-- A bound block-device driver instance (one variant per block driver wired
into this configuration). -/
inductive BlockDev where
  | ramdisk (dev : RamDisk)
  | sdhci (dev : SDHCIDev)

/-- A bound network-device driver instance (one variant per network driver
wired into this configuration). -/
inductive NetDev where
  | ixgbe (dev : IxgbeNicDev)
  | igb (dev : IgbNicDev)

/-- Modelled from the spec: the Device Handle, "a tagged union representing a
successfully bound device, categorized as network, block, or display, each
variant wrapping one concrete driver instance" (`crate::AxDeviceEnum`,
assembled by the register_*_driver wiring outside this file). -/
inductive AxDeviceEnum where
  | Net (dev : NetDev)
  | Block (dev : BlockDev)
  | Display (dev : Unit)

/-- AxDeviceEnum::from_net. -/
def AxDeviceEnum.from_net (d : NetDev) : AxDeviceEnum := .Net d

/-- AxDeviceEnum::from_block. -/
def AxDeviceEnum.from_block (d : BlockDev) : AxDeviceEnum := .Block d

/-- axdriver_pci::DeviceFunction: a PCI bus/device/function triple. -/
structure DeviceFunction where
  bus : Nat
  device : Nat
  function : Nat
  deriving DecidableEq, Repr

/-- axdriver_pci::DeviceFunctionInfo, restricted to the fields this module
reads: the 16-bit vendor and device identifiers. -/
structure DeviceFunctionInfo where
  vendor_id : Nat
  device_id : Nat
  deriving DecidableEq, Repr

/-- axdriver_pci::BarInfo: a resolved base address register, either a
memory-mapped region (address and size, both u64) or an I/O-mapped one. -/
inductive BarInfo where
  | Memory (address : Nat) (size : Nat)
  | Io (address : Nat) (size : Nat)
  deriving DecidableEq, Repr

/-- Intel's PCI vendor identifier, from the ixgbe/igb driver crates. -/
def INTEL_VEND : Nat := 0x8086

/-- The 82599 (10Gb ixgbe) device identifier, from the ixgbe driver crate. -/
def INTEL_82599 : Nat := 0x10FB

/-- The 82576 (igb) device identifier, from the igb driver crate. -/
def INTEL_82576 : Nat := 0x10C9

/-- The DriverProbe trait's default probe_global: "no match" for every input. -/
def DriverProbe.default_probe_global : Option AxDeviceEnum := none

/-- The DriverProbe trait's default probe_mmio: "no match" for every input. -/
def DriverProbe.default_probe_mmio (_mmio_base _mmio_size : Nat) : Option AxDeviceEnum :=
  none

/-- The DriverProbe trait's default probe_pci: "no match" for every input. -/
def DriverProbe.default_probe_pci (_bdf : DeviceFunction) (_dev_info : DeviceFunctionInfo) :
    Option AxDeviceEnum :=
  none

/-- RamDiskDriver::probe_global: always binds one RAM disk of 0x100_0000
(16 MiB) bytes. -/
def RamDiskDriver.probe_global : Option AxDeviceEnum :=
  some (AxDeviceEnum.from_block (BlockDev.ramdisk (RamDisk.new 0x1000000)))

/-- RamDiskDriver does not override probe_mmio: the trait default applies. -/
def RamDiskDriver.probe_mmio : Nat → Nat → Option AxDeviceEnum :=
  DriverProbe.default_probe_mmio

/-- RamDiskDriver does not override probe_pci: the trait default applies. -/
def RamDiskDriver.probe_pci : DeviceFunction → DeviceFunctionInfo → Option AxDeviceEnum :=
  DriverProbe.default_probe_pci

/-- BcmSdhciDriver::probe_global: `SDHCIDriver::try_new().ok().map(from_block)`.
`try_new` is an external constructor; its result is passed in. -/
def BcmSdhciDriver.probe_global (try_new : Except Unit SDHCIDev) : Option AxDeviceEnum :=
  (match try_new with
    | Except.ok d => some d
    | Except.error _ => none).map
    (fun d => AxDeviceEnum.from_block (BlockDev.sdhci d))

/-- IxgbeDriver::probe_pci. `off` is the kernel mapping offset used by
phys_to_virt; `bar_info_res` is the result of the external query
`root.bar_info(bdf, 0)` (unwrapped by the code); `init` is the external
constructor `IxgbeNic::<IxgbeHalImpl, 1024, 1>::init(vbase, size)` whose
failure the code turns into a panic via `expect`. The `% USIZE_SIZE` on the
BAR address and size model the `as usize` casts from u64. -/
def IxgbeDriver.probe_pci (off : Nat) (_bdf : DeviceFunction)
    (dev_info : DeviceFunctionInfo)
    (bar_info_res : Except Unit BarInfo)
    (init : Nat → Nat → Except Unit IxgbeNicDev) :
    RustResult (Option AxDeviceEnum) :=
  if dev_info.vendor_id = INTEL_VEND ∧ dev_info.device_id = INTEL_82599 then
    match bar_info_res with
    | Except.error _ => .panicked ("called Result::unwrap on an Err value")
    | Except.ok (BarInfo.Memory address size) =>
      match init (phys_to_virt off (address % USIZE_SIZE)) (size % USIZE_SIZE) with
      | Except.ok nic => .ok (some (AxDeviceEnum.from_net (NetDev.ixgbe nic)))
      | Except.error _ => .panicked ("failed to initialize ixgbe device")
    | Except.ok (BarInfo.Io _ _) => .ok none
  else
    .ok none

/-- IgbDriver::probe_pci, structured exactly like the ixgbe probe but
matching the 82576 identifier and constructing an igb NIC. -/
def IgbDriver.probe_pci (off : Nat) (_bdf : DeviceFunction)
    (dev_info : DeviceFunctionInfo)
    (bar_info_res : Except Unit BarInfo)
    (init : Nat → Nat → Except Unit IgbNicDev) :
    RustResult (Option AxDeviceEnum) :=
  if dev_info.vendor_id = INTEL_VEND ∧ dev_info.device_id = INTEL_82576 then
    match bar_info_res with
    | Except.error _ => .panicked ("called Result::unwrap on an Err value")
    | Except.ok (BarInfo.Memory address size) =>
      match init (phys_to_virt off (address % USIZE_SIZE)) (size % USIZE_SIZE) with
      | Except.ok nic => .ok (some (AxDeviceEnum.from_net (NetDev.igb nic)))
      | Except.error _ => .panicked ("failed to initialize igb device")
    | Except.ok (BarInfo.Io _ _) => .ok none
  else
    .ok none

/-- IgbHalImpl::dma_alloc: builds `Layout::from_size_align(size, 8).unwrap()`
(panicking if the layout is rejected), then asks the external coherent
allocator `alloc_coherent`; on allocator success returns
`(bus_addr as usize, cpu_addr)`, on allocator failure the sentinel pair
`(0, NonNull::dangling())`. -/
def IgbHalImpl.dma_alloc (size : Nat) (alloc : Layout → Except Unit DMAInfo) :
    RustResult (Nat × Nat) :=
  match Layout.from_size_align size 8 with
  | none => .panicked ("called Result::unwrap on an Err value")
  | some layout =>
    match alloc layout with
    | Except.ok dma_info => .ok (dma_info.bus_addr % USIZE_SIZE, dma_info.cpu_addr)
    | Except.error _ => .ok (0, NonNull.dangling)

/-- IgbHalImpl::dma_dealloc: builds `Layout::from_size_align(size, 8).unwrap()`
(panicking if the layout is rejected), hands the reconstructed DMAInfo to the
external `dealloc_coherent` (a side effect with no return value), and
returns the integer 0. -/
def IgbHalImpl.dma_dealloc (_paddr _vaddr : Nat) (size : Nat) : RustResult Int :=
  match Layout.from_size_align size 8 with
  | none => .panicked ("called Result::unwrap on an Err value")
  | some _ => .ok 0

/-- IgbHalImpl::mmio_phys_to_virt:
`NonNull::new(phys_to_virt(paddr).as_mut_ptr()).unwrap()` — panics only when
the mapped virtual address is the null pointer. -/
def IgbHalImpl.mmio_phys_to_virt (off p : Nat) : RustResult Nat :=
  if phys_to_virt off p = 0 then
    .panicked ("called Option::unwrap on a None value")
  else
    .ok (phys_to_virt off p)

/-- IgbHalImpl::mmio_virt_to_phys: `virt_to_phys(vaddr as usize)`. -/
def IgbHalImpl.mmio_virt_to_phys (off v : Nat) : Nat := virt_to_phys off v

/-- IgbHalImpl::wait_until: busy-waits for the duration (a pure delay, no
observable result) and then always returns Ok(()). The duration is in
nanoseconds. -/
def IgbHalImpl.wait_until (_duration : Nat) : Except String Unit := Except.ok ()

/-- Helper: for any size within the documented bound, the 8-byte-aligned
layout construction used by both DMA adapter operations succeeds. -/
theorem from_size_align_eight (size : Nat) (hsz : size ≤ ISIZE_MAX - 7) :
    Layout.from_size_align size 8 = some ⟨size, 8⟩ := by
  have hc : (8 : Nat) ≠ 0 ∧ (8 : Nat) &&& (8 - 1) = 0 ∧ size ≤ ISIZE_MAX - (8 - 1) :=
    ⟨by decide, by decide, hsz⟩
  unfold Layout.from_size_align
  rw [if_pos hc]

/-- Claim C1: IxgbeDriver::probe_pci binds a handle only when the function's
vendor_id is INTEL_VEND and device_id is INTEL_82599, IgbDriver::probe_pci
only when vendor_id is INTEL_VEND and device_id is INTEL_82576; any function
whose identifiers do not match exactly gets "no match" (None), independent of
the BAR query result and of the device constructor, i.e. with no
initialization attempted. -/
theorem probe_pci_exact_match (off : Nat) (bdf : DeviceFunction)
    (info : DeviceFunctionInfo) (barIx barIg : Except Unit BarInfo)
    (initIx : Nat → Nat → Except Unit IxgbeNicDev)
    (initIg : Nat → Nat → Except Unit IgbNicDev) :
    (∀ h, IxgbeDriver.probe_pci off bdf info barIx initIx = RustResult.ok (some h) →
      info.vendor_id = INTEL_VEND ∧ info.device_id = INTEL_82599) ∧
    (¬(info.vendor_id = INTEL_VEND ∧ info.device_id = INTEL_82599) →
      IxgbeDriver.probe_pci off bdf info barIx initIx = RustResult.ok none) ∧
    (∀ h, IgbDriver.probe_pci off bdf info barIg initIg = RustResult.ok (some h) →
      info.vendor_id = INTEL_VEND ∧ info.device_id = INTEL_82576) ∧
    (¬(info.vendor_id = INTEL_VEND ∧ info.device_id = INTEL_82576) →
      IgbDriver.probe_pci off bdf info barIg initIg = RustResult.ok none) := by
  refine ⟨?_, ?_, ?_, ?_⟩
  · intro h heq
    by_contra hne
    unfold IxgbeDriver.probe_pci at heq
    rw [if_neg hne] at heq
    simp at heq
  · intro hne
    unfold IxgbeDriver.probe_pci
    rw [if_neg hne]
  · intro h heq
    by_contra hne
    unfold IgbDriver.probe_pci at heq
    rw [if_neg hne] at heq
    simp at heq
  · intro hne
    unfold IgbDriver.probe_pci
    rw [if_neg hne]

/-- Witness for C1: a function with identifiers 0x1234/0x5678 matches neither
driver and both probes report "no match". -/
theorem probe_pci_exact_match_witness :
    IxgbeDriver.probe_pci 0 ⟨0, 0, 0⟩ ⟨0x1234, 0x5678⟩
        (Except.ok (BarInfo.Memory 0 0)) (fun v s => Except.ok ⟨v, s⟩) =
      RustResult.ok none ∧
    IgbDriver.probe_pci 0 ⟨0, 0, 0⟩ ⟨0x1234, 0x5678⟩
        (Except.ok (BarInfo.Memory 0 0)) (fun v s => Except.ok ⟨v, s⟩) =
      RustResult.ok none :=
  ⟨(probe_pci_exact_match 0 ⟨0, 0, 0⟩ ⟨0x1234, 0x5678⟩
      (Except.ok (BarInfo.Memory 0 0)) (Except.ok (BarInfo.Memory 0 0))
      (fun v s => Except.ok ⟨v, s⟩) (fun v s => Except.ok ⟨v, s⟩)).2.1 (by decide),
   (probe_pci_exact_match 0 ⟨0, 0, 0⟩ ⟨0x1234, 0x5678⟩
      (Except.ok (BarInfo.Memory 0 0)) (Except.ok (BarInfo.Memory 0 0))
      (fun v s => Except.ok ⟨v, s⟩) (fun v s => Except.ok ⟨v, s⟩)).2.2.2 (by decide)⟩

/-- Claim C2: when the identifiers match a DMA-requiring driver (ixgbe or
igb) but BAR0 resolves to an I/O-mapped region, probe_pci returns "no match"
(None), independent of the device constructor, i.e. without attempting
hardware initialization. -/
theorem probe_pci_io_bar_rejected (off : Nat) (bdf : DeviceFunction)
    (info : DeviceFunctionInfo) (a s : Nat)
    (initIx : Nat → Nat → Except Unit IxgbeNicDev)
    (initIg : Nat → Nat → Except Unit IgbNicDev) :
    (info.vendor_id = INTEL_VEND ∧ info.device_id = INTEL_82599 →
      IxgbeDriver.probe_pci off bdf info (Except.ok (BarInfo.Io a s)) initIx =
        RustResult.ok none) ∧
    (info.vendor_id = INTEL_VEND ∧ info.device_id = INTEL_82576 →
      IgbDriver.probe_pci off bdf info (Except.ok (BarInfo.Io a s)) initIg =
        RustResult.ok none) := by
  constructor
  · intro h
    unfold IxgbeDriver.probe_pci
    rw [if_pos h]
  · intro h
    unfold IgbDriver.probe_pci
    rw [if_pos h]

/-- Witness for C2: a matching ixgbe function and a matching igb function,
each with an I/O-mapped BAR0, are both rejected with "no match". -/
theorem probe_pci_io_bar_rejected_witness :
    IxgbeDriver.probe_pci 0 ⟨0, 0, 0⟩ ⟨INTEL_VEND, INTEL_82599⟩
        (Except.ok (BarInfo.Io 0xc000 0x40)) (fun v s => Except.ok ⟨v, s⟩) =
      RustResult.ok none ∧
    IgbDriver.probe_pci 0 ⟨0, 0, 0⟩ ⟨INTEL_VEND, INTEL_82576⟩
        (Except.ok (BarInfo.Io 0xc000 0x40)) (fun v s => Except.ok ⟨v, s⟩) =
      RustResult.ok none :=
  ⟨(probe_pci_io_bar_rejected 0 ⟨0, 0, 0⟩ ⟨INTEL_VEND, INTEL_82599⟩ 0xc000 0x40
      (fun v s => Except.ok ⟨v, s⟩) (fun v s => Except.ok ⟨v, s⟩)).1 (by decide),
   (probe_pci_io_bar_rejected 0 ⟨0, 0, 0⟩ ⟨INTEL_VEND, INTEL_82576⟩ 0xc000 0x40
      (fun v s => Except.ok ⟨v, s⟩) (fun v s => Except.ok ⟨v, s⟩)).2 (by decide)⟩

/-- Counterexample for C3: for a recognized ixgbe function (exact identifier
match, memory-mapped BAR0) whose hardware initialization fails, probe_pci
does not return "no match" — it panics through
expect("failed to initialize ixgbe device"), aborting execution. -/
theorem ixgbe_init_failure_panic_cex :
    IxgbeDriver.probe_pci 0 ⟨0, 0, 0⟩ ⟨INTEL_VEND, INTEL_82599⟩
        (Except.ok (BarInfo.Memory 0xfebc0000 0x80000))
        (fun _ _ => Except.error ()) =
      RustResult.panicked ("failed to initialize ixgbe device") ∧
    IxgbeDriver.probe_pci 0 ⟨0, 0, 0⟩ ⟨INTEL_VEND, INTEL_82599⟩
        (Except.ok (BarInfo.Memory 0xfebc0000 0x80000))
        (fun _ _ => Except.error ()) ≠
      RustResult.ok none := by
  have h1 : IxgbeDriver.probe_pci 0 ⟨0, 0, 0⟩ ⟨INTEL_VEND, INTEL_82599⟩
      (Except.ok (BarInfo.Memory 0xfebc0000 0x80000))
      (fun _ _ => Except.error ()) =
      RustResult.panicked ("failed to initialize ixgbe device") := by
    unfold IxgbeDriver.probe_pci
    rw [if_pos ⟨rfl, rfl⟩]
  refine ⟨h1, ?_⟩
  rw [h1]
  intro h
  exact RustResult.noConfusion h

/-- Claim C3 as amended: when a probe has recognized a device (exact
identifier match with a memory-mapped BAR0) and the hardware initialization
then fails, probe_pci panics with the corresponding expect message — it
aborts instead of dropping just that device and letting discovery continue. -/
theorem probe_pci_init_failure_panics (off : Nat) (bdf : DeviceFunction)
    (info : DeviceFunctionInfo) (address size : Nat)
    (initIx : Nat → Nat → Except Unit IxgbeNicDev)
    (initIg : Nat → Nat → Except Unit IgbNicDev) :
    (info.vendor_id = INTEL_VEND ∧ info.device_id = INTEL_82599 →
      initIx (phys_to_virt off (address % USIZE_SIZE)) (size % USIZE_SIZE) =
        Except.error () →
      IxgbeDriver.probe_pci off bdf info (Except.ok (BarInfo.Memory address size)) initIx =
        RustResult.panicked ("failed to initialize ixgbe device")) ∧
    (info.vendor_id = INTEL_VEND ∧ info.device_id = INTEL_82576 →
      initIg (phys_to_virt off (address % USIZE_SIZE)) (size % USIZE_SIZE) =
        Except.error () →
      IgbDriver.probe_pci off bdf info (Except.ok (BarInfo.Memory address size)) initIg =
        RustResult.panicked ("failed to initialize igb device")) := by
  constructor
  · intro h hi
    unfold IxgbeDriver.probe_pci
    rw [if_pos h]
    simp only [hi]
  · intro h hi
    unfold IgbDriver.probe_pci
    rw [if_pos h]
    simp only [hi]

/-- Witness for amended C3: a concrete recognized igb function whose failing
initialization makes the probe panic. -/
theorem probe_pci_init_failure_panics_witness :
    IgbDriver.probe_pci 0 ⟨0, 3, 0⟩ ⟨INTEL_VEND, INTEL_82576⟩
        (Except.ok (BarInfo.Memory 0xfebc0000 0x80000))
        (fun _ _ => Except.error ()) =
      RustResult.panicked ("failed to initialize igb device") :=
  (probe_pci_init_failure_panics 0 ⟨0, 3, 0⟩ ⟨INTEL_VEND, INTEL_82576⟩
      0xfebc0000 0x80000 (fun _ _ => Except.error ())
      (fun _ _ => Except.error ())).2 (by decide) rfl

/-- Claim C4: the DriverProbe defaults for probe_global, probe_mmio and
probe_pci return "no match" (None) for every input, and
BcmSdhciDriver::probe_global converts a failed SDHCIDriver::try_new into
"no match" rather than surfacing an error, while a successful construction
is wrapped as a block-device handle. -/
theorem probe_defaults_and_sdhci_no_error (base size : Nat) (bdf : DeviceFunction)
    (info : DeviceFunctionInfo) (try_new : Except Unit SDHCIDev) :
    DriverProbe.default_probe_global = none ∧
    DriverProbe.default_probe_mmio base size = none ∧
    DriverProbe.default_probe_pci bdf info = none ∧
    (try_new = Except.error () → BcmSdhciDriver.probe_global try_new = none) ∧
    (∀ d, try_new = Except.ok d →
      BcmSdhciDriver.probe_global try_new =
        some (AxDeviceEnum.from_block (BlockDev.sdhci d))) := by
  refine ⟨rfl, rfl, rfl, ?_, ?_⟩
  · intro h
    rw [h]
    rfl
  · intro d h
    rw [h]
    rfl

/-- Witness for C4: at concrete inputs, the defaults decline, a failing
SDHCI construction yields "no match", and a successful one yields a handle. -/
theorem probe_defaults_and_sdhci_no_error_witness :
    DriverProbe.default_probe_global = none ∧
    DriverProbe.default_probe_mmio 0x1000 0x100 = none ∧
    DriverProbe.default_probe_pci ⟨0, 0, 0⟩ ⟨1, 2⟩ = none ∧
    BcmSdhciDriver.probe_global (Except.error ()) = none :=
  ⟨(probe_defaults_and_sdhci_no_error 0x1000 0x100 ⟨0, 0, 0⟩ ⟨1, 2⟩
      (Except.error ())).1,
   (probe_defaults_and_sdhci_no_error 0x1000 0x100 ⟨0, 0, 0⟩ ⟨1, 2⟩
      (Except.error ())).2.1,
   (probe_defaults_and_sdhci_no_error 0x1000 0x100 ⟨0, 0, 0⟩ ⟨1, 2⟩
      (Except.error ())).2.2.1,
   (probe_defaults_and_sdhci_no_error 0x1000 0x100 ⟨0, 0, 0⟩ ⟨1, 2⟩
      (Except.error ())).2.2.2.1 rfl⟩

/-- Counterexample for C5: at size 2^63 the layout construction's unwrap in
dma_alloc panics before the coherent allocator is even consulted, so with a
failing allocator the result is a panic, not the sentinel pair (0, dangling). -/
theorem dma_alloc_huge_size_panic_cex :
    IgbHalImpl.dma_alloc (2 ^ 63) (fun _ => Except.error ()) =
      RustResult.panicked ("called Result::unwrap on an Err value") ∧
    IgbHalImpl.dma_alloc (2 ^ 63) (fun _ => Except.error ()) ≠
      RustResult.ok (0, NonNull.dangling) := by
  decide

/-- Claim C5 as amended: for every size accepted by
Layout::from_size_align(size, 8) (i.e. size ≤ isize::MAX − 7), when the
coherent allocator fails dma_alloc returns the sentinel pair
(bus address 0, dangling CPU pointer), and when the allocator succeeds it
returns the allocator's bus address (as usize) and CPU virtual address; for
larger sizes the layout unwrap panics before the allocator runs. -/
theorem dma_alloc_sentinel_on_failure (size : Nat)
    (alloc : Layout → Except Unit DMAInfo) (hsz : size ≤ ISIZE_MAX - 7) :
    (alloc ⟨size, 8⟩ = Except.error () →
      IgbHalImpl.dma_alloc size alloc = RustResult.ok (0, NonNull.dangling)) ∧
    (∀ dma_info, alloc ⟨size, 8⟩ = Except.ok dma_info →
      IgbHalImpl.dma_alloc size alloc =
        RustResult.ok (dma_info.bus_addr % USIZE_SIZE, dma_info.cpu_addr)) := by
  have hl := from_size_align_eight size hsz
  constructor
  · intro h
    unfold IgbHalImpl.dma_alloc
    simp only [hl, h]
  · intro dma_info h
    unfold IgbHalImpl.dma_alloc
    simp only [hl, h]

/-- Witness for amended C5: at size 64, a failing allocator produces the
sentinel pair (0, 1). -/
theorem dma_alloc_sentinel_on_failure_witness :
    IgbHalImpl.dma_alloc 64 (fun _ => Except.error ()) =
      RustResult.ok (0, NonNull.dangling) :=
  (dma_alloc_sentinel_on_failure 64 (fun _ => Except.error ()) (by decide)).1 rfl

/-- Claim C6: for every mapping offset and every physical address p in the
usize range whose mapped virtual address is nonzero (normal operation),
mmio_phys_to_virt succeeds without panicking, and mmio_virt_to_phys of the
result yields p again. -/
theorem mmio_phys_virt_round_trip (off p : Nat)
    (hp : p < USIZE_SIZE) (hv : phys_to_virt off p ≠ 0) :
    IgbHalImpl.mmio_phys_to_virt off p = RustResult.ok (phys_to_virt off p) ∧
    IgbHalImpl.mmio_virt_to_phys off (phys_to_virt off p) = p := by
  constructor
  · unfold IgbHalImpl.mmio_phys_to_virt
    rw [if_neg hv]
  · unfold IgbHalImpl.mmio_virt_to_phys virt_to_phys phys_to_virt
    have h64 : USIZE_SIZE = 18446744073709551616 := by norm_num [USIZE_SIZE]
    rw [h64] at hp ⊢
    omega

/-- Witness for C6: the round trip at offset 0xffff800000000000 and physical
address 0x1000. -/
theorem mmio_phys_virt_round_trip_witness :
    IgbHalImpl.mmio_phys_to_virt 0xffff800000000000 0x1000 =
      RustResult.ok (phys_to_virt 0xffff800000000000 0x1000) ∧
    IgbHalImpl.mmio_virt_to_phys 0xffff800000000000
      (phys_to_virt 0xffff800000000000 0x1000) = 0x1000 :=
  mmio_phys_virt_round_trip 0xffff800000000000 0x1000 (by decide) (by decide)

/-- Claim C7: wait_until returns Ok(()) for every duration; no input makes it
fail. -/
theorem wait_until_always_ok (duration : Nat) :
    IgbHalImpl.wait_until duration = Except.ok () := rfl

/-- Claim C8: RamDiskDriver::probe_global always returns exactly one block
handle backed by a 16 MiB (0x1000000-byte) zero-initialized RAM region, and
the ramdisk driver keeps the default "no match" for the MMIO and PCI probe
operations. -/
theorem ramdisk_probe_shape (base size : Nat) (bdf : DeviceFunction)
    (info : DeviceFunctionInfo) :
    (∃ rd : RamDisk,
      RamDiskDriver.probe_global =
        some (AxDeviceEnum.from_block (BlockDev.ramdisk rd)) ∧
      rd.size = 0x1000000 ∧ ∀ i, rd.contents i = 0) ∧
    RamDiskDriver.probe_mmio base size = DriverProbe.default_probe_mmio base size ∧
    RamDiskDriver.probe_mmio base size = none ∧
    RamDiskDriver.probe_pci bdf info = DriverProbe.default_probe_pci bdf info ∧
    RamDiskDriver.probe_pci bdf info = none :=
  ⟨⟨RamDisk.new 0x1000000, rfl, rfl, fun _ => rfl⟩, rfl, rfl, rfl, rfl⟩

/-- Claim C9: for a function whose identifiers match ixgbe or igb, the probe
unwraps the external bar_info query result, so an error from that query makes
the probe panic instead of returning "no match". -/
theorem probe_pci_bar_query_unwrap (off : Nat) (bdf : DeviceFunction)
    (info : DeviceFunctionInfo)
    (initIx : Nat → Nat → Except Unit IxgbeNicDev)
    (initIg : Nat → Nat → Except Unit IgbNicDev) :
    (info.vendor_id = INTEL_VEND ∧ info.device_id = INTEL_82599 →
      IxgbeDriver.probe_pci off bdf info (Except.error ()) initIx =
        RustResult.panicked ("called Result::unwrap on an Err value")) ∧
    (info.vendor_id = INTEL_VEND ∧ info.device_id = INTEL_82576 →
      IgbDriver.probe_pci off bdf info (Except.error ()) initIg =
        RustResult.panicked ("called Result::unwrap on an Err value")) := by
  constructor
  · intro h
    unfold IxgbeDriver.probe_pci
    rw [if_pos h]
  · intro h
    unfold IgbDriver.probe_pci
    rw [if_pos h]

/-- Witness for C9: concrete matching functions whose BAR query errors make
both probes panic. -/
theorem probe_pci_bar_query_unwrap_witness :
    IxgbeDriver.probe_pci 0 ⟨0, 0, 0⟩ ⟨INTEL_VEND, INTEL_82599⟩
        (Except.error ()) (fun v s => Except.ok ⟨v, s⟩) =
      RustResult.panicked ("called Result::unwrap on an Err value") ∧
    IgbDriver.probe_pci 0 ⟨0, 0, 0⟩ ⟨INTEL_VEND, INTEL_82576⟩
        (Except.error ()) (fun v s => Except.ok ⟨v, s⟩) =
      RustResult.panicked ("called Result::unwrap on an Err value") :=
  ⟨(probe_pci_bar_query_unwrap 0 ⟨0, 0, 0⟩ ⟨INTEL_VEND, INTEL_82599⟩
      (fun v s => Except.ok ⟨v, s⟩) (fun v s => Except.ok ⟨v, s⟩)).1 (by decide),
   (probe_pci_bar_query_unwrap 0 ⟨0, 0, 0⟩ ⟨INTEL_VEND, INTEL_82576⟩
      (fun v s => Except.ok ⟨v, s⟩) (fun v s => Except.ok ⟨v, s⟩)).2 (by decide)⟩

/-- Counterexample for C10: at size 2^63 the layout construction's unwrap in
dma_dealloc panics, so the operation does not return 0 for that input triple. -/
theorem dma_dealloc_huge_size_panic_cex :
    IgbHalImpl.dma_dealloc 0x1000 0xffff800000001000 (2 ^ 63) =
      RustResult.panicked ("called Result::unwrap on an Err value") ∧
    IgbHalImpl.dma_dealloc 0x1000 0xffff800000001000 (2 ^ 63) ≠
      RustResult.ok 0 := by
  decide

/-- Claim C10 as amended: for every input triple whose size is accepted by
Layout::from_size_align(size, 8) (size ≤ isize::MAX − 7), dma_dealloc
returns 0 and never signals failure through its integer return value; both
DMA operations build their layout from the size with fixed 8-byte alignment
(dma_alloc consults the allocator only at layout (size, 8)); for larger
sizes the layout unwrap panics. -/
theorem dma_dealloc_returns_zero (paddr vaddr size : Nat)
    (hsz : size ≤ ISIZE_MAX - 7) :
    IgbHalImpl.dma_dealloc paddr vaddr size = RustResult.ok 0 ∧
    Layout.from_size_align size 8 = some ⟨size, 8⟩ ∧
    (∀ alloc alloc2 : Layout → Except Unit DMAInfo,
      alloc ⟨size, 8⟩ = alloc2 ⟨size, 8⟩ →
      IgbHalImpl.dma_alloc size alloc = IgbHalImpl.dma_alloc size alloc2) := by
  have hl := from_size_align_eight size hsz
  refine ⟨?_, hl, ?_⟩
  · unfold IgbHalImpl.dma_dealloc
    rw [hl]
  · intro a a2 h
    unfold IgbHalImpl.dma_alloc
    simp only [hl, h]

/-- Witness for amended C10: a concrete triple on which dma_dealloc returns 0. -/
theorem dma_dealloc_returns_zero_witness :
    IgbHalImpl.dma_dealloc 0x89000 0xffff800000089000 4096 = RustResult.ok 0 :=
  (dma_dealloc_returns_zero 0x89000 0xffff800000089000 4096 (by decide)).1
